import Mathlib

/-!
Verification of the telebot repository's command-dispatch and file-resolution
logic against its design specification.

The repository holds two variants of the bot:
* `src/server.js` — embedded below in namespace `Server`;
* the `index.js` contained in `src/unnamed/part_000` — embedded in namespace `IndexJs`.

JavaScript strings are modelled as `List Char` (`Str`).  `Math.floor(Math.log n /
Math.log 1024)` is modelled by the exact integer floor-logarithm `logFloor`
(floating-point rounding of `Math.log` is outside the embedding).  `toFixed(2)`
is modelled as exact decimal rounding (half up) of the rational value.  Outbound
HTTP calls (`sendMessage` / `sendDocument`) are modelled as `Call`s recorded in
order; whether the n-th attempted call succeeds is given by an oracle
`ok : Nat → Bool`, and a failed call raises, following the source's try/catch
structure.
-/

/-- JavaScript strings, modelled as lists of characters. -/
abbrev Str := List Char

/-- Coerce a Lean string literal to the `Str` model. -/
def str (s : String) : Str := s.data

/-- Model of JavaScript `String.prototype.toLowerCase` (ASCII range). -/
def jsLower (s : Str) : Str := s.map Char.toLower

/-- Model of JavaScript `String.prototype.trim`. -/
def jsTrim (s : Str) : Str :=
  ((s.dropWhile Char.isWhitespace).reverse.dropWhile Char.isWhitespace).reverse

/-- Whether `p` is a prefix of `s`; model of JavaScript `s.startsWith(p)`. -/
def isPreOf (p : Str) (s : Str) : Bool :=
  match p with
  | [] => true
  | a :: as =>
    match s with
    | [] => false
    | b :: bs => (a == b) && isPreOf as bs

/-- Model of JavaScript `haystack.includes(needle)`: substring containment. -/
def isSubOf (needle : Str) : Str → Bool
  | [] => needle.isEmpty
  | c :: rest => isPreOf needle (c :: rest) || isSubOf needle rest

/-- Model of JavaScript `s.split(sep)` for a single-character separator. -/
def jsSplit (sep : Char) : Str → List Str
  | [] => [[]]
  | c :: rest =>
    match jsSplit sep rest with
    | [] => [[]]
    | h :: t => if c == sep then [] :: h :: t else (c :: h) :: t

/-- Model of JavaScript `parts.join(sep)` for a single-character separator. -/
def joinSep (sep : Char) : List Str → Str
  | [] => []
  | [x] => x
  | x :: xs => x ++ sep :: joinSep sep xs

/-- The display name computed by both variants:
`file.split('-').slice(1).join('-')`. -/
def displayName (s : Str) : Str := joinSep '-' ((jsSplit '-' s).drop 1)

/-- Specification-side description of `displayName`: remove every character up
to and including the first occurrence of the separator (empty if absent). -/
def afterFirst (sep : Char) : Str → Str
  | [] => []
  | c :: rest => if c == sep then rest else afterFirst sep rest

/-- Decimal rendering of a natural number, as in JavaScript template literals. -/
def numStr (n : Nat) : Str := (Nat.repr n).data

/-- Fuel-driven integer floor logarithm. -/
def logFloorAux (b : Nat) : Nat → Nat → Nat
  | 0, _ => 0
  | fuel + 1, n => if b ≤ n then logFloorAux b fuel (n / b) + 1 else 0

/-- Exact model of `Math.floor(Math.log n / Math.log b)` for `n ≥ 1`. -/
def logFloor (b n : Nat) : Nat := logFloorAux b n n

/-- The unit table `['B', 'KB', 'MB', 'GB']` shared by both variants. -/
def sizes : List Str := [str "B", str "KB", str "MB", str "GB"]

/-- Exact model of `(num / den).toFixed(2)`: integer part, a dot, and exactly
two fraction digits of the value rounded to hundredths (half up). -/
def toFixed2 (num den : Nat) : Str :=
  let h := (num * 200 + den) / (den * 2)
  numStr (h / 100) ++ '.' :: Char.ofNat (48 + h / 10 % 10) :: Char.ofNat (48 + h % 10) :: []

/-- Model of the `parseFloat(x.toFixed(2))` round-trip in `server.js`: trailing
zeros of the fraction are dropped, and a then-trailing dot is dropped too. -/
def trimFloatStr (s : Str) : Str :=
  (match s.reverse.dropWhile (fun c => c == '0') with
   | '.' :: t => t
   | t => t).reverse

/-- A stored file as observed through `readdirSync` + `statSync`.  The
`dateStr` field models the formatted `birthtime` shown by `server.js`. -/
structure File where
  name : Str
  size : Nat
  dateStr : Str
deriving DecidableEq

/-- An inbound Telegram message, `{chat:{id}, text, from:{first_name}}`. -/
structure Msg where
  chatId : Int
  text : Option Str
  firstName : Option Str
deriving DecidableEq

/-- A webhook delivery wrapper. -/
structure Update where
  message : Option Msg
deriving DecidableEq

/-- An outbound call attempted against the Telegram HTTP API. -/
inductive Call where
  | sendMessage (chatId : Int) (text : Str)
  | sendDocument (chatId : Int) (document : Str)
deriving DecidableEq

/-- Whether an action is a document-attachment send. -/
def Call.isDoc : Call → Bool
  | .sendDocument _ _ => true
  | _ => false

/-- A branch that builds one reply text and attempts a single `sendMessage`;
status 500 when that call fails (the error reaches the handler's catch). -/
def simpleReply (ok : Nat → Bool) (chatId : Int) (text : Str) : Nat × List Call :=
  ((if ok 0 then 200 else 500), [Call.sendMessage chatId text])

/-- Startup outcome of either variant. -/
inductive Startup where
  | exited (code : Nat)
  | serving (apiUrl : Str)
deriving DecidableEq

/-- The Telegram API base URL prefix. -/
def apiBase : Str := str "https://api.telegram.org/bot"

namespace Server

/-- Base URL (`process.env.BASE_URL || http://localhost:PORT`), modelled with
the default port 3000. -/
def baseUrl : Str := str "http://localhost:3000"

/-- Startup of `server.js`: the token is read but never checked, so the server
serves unconditionally; an absent variable interpolates as `undefined` into
`TELEGRAM_API_URL`. -/
def startup (token : Option Str) : Startup :=
  .serving (apiBase ++ (match token with | none => str "undefined" | some t => t))

/-- Embedding of `getFileInfo` (server.js lines 51-75): the first directory
entry such that
`file.toLowerCase().includes(filename.toLowerCase()) ||
 file.split('-').slice(1).join('-').toLowerCase() === filename.toLowerCase()`. -/
def getFileInfo (files : List File) (filename : Str) : Option File :=
  files.find? (fun f =>
    isSubOf (jsLower filename) (jsLower f.name) ||
    (jsLower (displayName f.name) == jsLower filename))

/-- Embedding of `formatFileSize` (server.js lines 111-117). -/
def formatFileSize (bytes : Nat) : Str :=
  if bytes = 0 then str "0 B"
  else
    trimFloatStr (toFixed2 bytes (1024 ^ logFloor 1024 bytes)) ++ str " " ++
      sizes.getD (logFloor 1024 bytes) (str "undefined")

/-- Download URL of a stored file. -/
def fileUrl (f : File) : Str := baseUrl ++ str "/uploads/" ++ f.name

/-- Help text of the `/start` and `/help` branch. -/
def helpText (userName : Str) : Str :=
  str "🤖 <b>File Management Bot</b>\n\n👋 Hello " ++ userName ++
  str "!\n\n📋 <b>Available Commands:</b>\n• /help - Show this help message\n• /list - Show all available files\n• /get filename - Download a specific file\n• /count - Show total number of files\n\n📤 <b>Upload files via API:</b>\nPOST " ++
  baseUrl ++ str "/api/upload"

/-- One numbered line of the `/list` reply. -/
def fileLine (i : Nat) (f : File) : Str :=
  numStr (i + 1) ++ str ". <code>" ++ displayName f.name ++ str "</code> (" ++
  formatFileSize f.size ++ str ")"

/-- Reply text of the `/list` branch. -/
def listText (files : List File) : Str :=
  if files.isEmpty then
    str "📁 <b>No files available</b>\n\nUpload files via API: POST " ++ baseUrl ++ str "/api/upload"
  else
    str "📁 <b>Available Files (" ++ numStr files.length ++ str "):</b>\n\n" ++
    joinSep '\n' (files.enum.map (fun p => fileLine p.1 p.2)) ++
    str "\n\n💡 To download: <code>/get filename</code>"

/-- Reply text of the `/count` branch. -/
def countText (files : List File) : Str :=
  str "📊 <b>File Statistics:</b>\n\n📁 Total files: " ++ numStr files.length ++
  str "\n💾 Total size: " ++ formatFileSize (files.foldl (fun acc f => acc + f.size) 0)

/-- Info message sent before a document delivery in the `/get` branch. -/
def infoText (f : File) : Str :=
  str "📎 <b>Sending file:</b> " ++ displayName f.name ++ str "\n\n📏 Size: " ++
  formatFileSize f.size ++ str "\n📅 Uploaded: " ++ f.dateStr

/-- Fallback link message produced inside `sendDocument`'s own catch. -/
def docFallbackText (f : File) : Str :=
  str "📎 <b>File:</b> " ++ displayName f.name ++ str "\n\n🔗 <a href=\"" ++
  fileUrl f ++ str "\">Download Link</a>"

/-- Message of the `/get` branch's inner catch, sent when both the document
send and `sendDocument`'s internal fallback message failed. -/
def failedText (f : File) : Str :=
  str "❌ <b>Failed to send file directly</b>\n\n🔗 <a href=\"" ++ fileUrl f ++
  str "\">Download Link</a>"

/-- Reply text when `getFileInfo` resolves nothing. -/
def notFoundText (requested : Str) : Str :=
  str "❌ <b>File not found:</b> \"" ++ requested ++ str "\"\n\nUse /list to see available files."

/-- Reply text of the fallback branch; interpolates the raw `message.text`
(the string `undefined` when the field is absent). -/
def unknownText (rawText : Option Str) : Str :=
  str "❓ <b>Unknown command:</b> \"" ++
  (match rawText with | none => str "undefined" | some t => t) ++
  str "\"\n\nSend /help for available commands."

/-- The `/get`-found path (server.js lines 234-247).  Call 0 is the info
message (its failure escapes to the outer catch).  Call 1 is the document
send; on its failure `sendDocument`'s own catch attempts the link fallback
(call 2), and if that also fails the error reaches the branch's inner catch,
which attempts the failed-to-send message (call 3). -/
def getBranch (ok : Nat → Bool) (chatId : Int) (fi : File) : Nat × List Call :=
  let c0 := Call.sendMessage chatId (infoText fi)
  if ok 0 then
    let c1 := Call.sendDocument chatId fi.name
    if ok 1 then (200, [c0, c1])
    else
      let c2 := Call.sendMessage chatId (docFallbackText fi)
      if ok 2 then (200, [c0, c1, c2])
      else
        let c3 := Call.sendMessage chatId (failedText fi)
        if ok 3 then (200, [c0, c1, c2, c3]) else (500, [c0, c1, c2, c3])
  else (500, [c0])

/-- Command dispatch of the webhook handler (server.js lines 191-259), given
the already lowercased and trimmed `text`. -/
def dispatch (ok : Nat → Bool) (files : List File) (chatId : Int) (text : Str)
    (rawText : Option Str) (userName : Str) : Nat × List Call :=
  if text == str "/start" || text == str "/help" then
    simpleReply ok chatId (helpText userName)
  else if text == str "/list" || text == str "/files" then
    simpleReply ok chatId (listText files)
  else if text == str "/count" then
    simpleReply ok chatId (countText files)
  else if isPreOf (str "/get ") text then
    let requested := jsTrim (text.drop 5)
    match getFileInfo files requested with
    | some fi => getBranch ok chatId fi
    | none => simpleReply ok chatId (notFoundText requested)
  else
    simpleReply ok chatId (unknownText rawText)

/-- Embedding of `POST /webhook/telegram` (server.js lines 178-265).  A
delivery without a `message` is acknowledged with 200 and no call; otherwise
`message.from` is assumed present, `text` is trimmed and lowercased
(`message.text?.trim().toLowerCase() || ''`), and dispatch runs. -/
def handle (ok : Nat → Bool) (files : List File) (upd : Update) : Nat × List Call :=
  match upd.message with
  | none => (200, [])
  | some m =>
    let userName := match m.firstName with
      | none => str "User"
      | some n => if n == [] then str "User" else n
    dispatch ok files m.chatId (jsLower (jsTrim (m.text.getD []))) m.text userName

end Server

namespace IndexJs

/-- Base URL, modelled with the default port 3000. -/
def baseUrl : Str := str "http://localhost:3000"

/-- Startup of the `index.js` variant (part_000 lines 104-108): the guard
`if (!TELEGRAM_BOT_TOKEN)` is truthy both when the variable is absent and
when it is present but empty (both are falsy in JS); either way the process
logs an error and calls `process.exit(1)`. -/
def startup (token : Option Str) : Startup :=
  match token with
  | none => .exited 1
  | some t => if t == [] then .exited 1 else .serving (apiBase ++ t)

/-- The constant `TELEGRAM_FILE_LIMIT = 50 * 1024 * 1024`. -/
def TELEGRAM_FILE_LIMIT : Nat := 50 * 1024 * 1024

/-- Embedding of `getFileInfo` (part_000 lines 138-152): the first directory
entry with `f.includes(filename)` — a case-sensitive substring match. -/
def getFileInfo (files : List File) (filename : Str) : Option File :=
  files.find? (fun f => isSubOf filename f.name)

/-- Embedding of `formatSize` (part_000 lines 131-135). -/
def formatSize (bytes : Nat) : Str :=
  if bytes = 0 then str "0 B"
  else
    toFixed2 bytes (1024 ^ logFloor 1024 bytes) ++ str " " ++
      sizes.getD (logFloor 1024 bytes) (str "undefined")

/-- Help text of the `/start` and `/help` branch. -/
def helpText : Str :=
  str "🤖 File Bot\n\nCommands:\n/list - Show files\n/get filename - Download file\n/count - Stats\n/search keyword - Search files"

/-- One numbered line of the `/list` reply. -/
def listLine (i : Nat) (f : File) : Str :=
  numStr (i + 1) ++ str ". " ++ displayName f.name ++ str " (" ++ formatSize f.size ++ str ")"

/-- Reply text of the nonempty `/list` branch. -/
def listText (files : List File) : Str :=
  str "📁 Files:\n\n" ++ joinSep '\n' (files.enum.map (fun p => listLine p.1 p.2))

/-- Reply text of the empty `/list` branch. -/
def emptyText : Str := str "📁 No files available"

/-- Reply text of the `/count` branch. -/
def countText (files : List File) : Str :=
  str "📊 Files: " ++ numStr files.length ++ str "\n💾 Size: " ++
  formatSize (files.foldl (fun acc f => acc + f.size) 0)

/-- The filter of the `/search` branch (part_000 line 201):
`files.filter(f => f.toLowerCase().includes(keyword.toLowerCase()))`. -/
def searchMatches (files : List File) (keyword : Str) : List File :=
  files.filter (fun f => isSubOf (jsLower keyword) (jsLower f.name))

/-- Command dispatch of the webhook handler (part_000 lines 181-230), given
the already lowercased and trimmed `text`.  Both reply paths of the `/search`
branch, the `/get` not-found and too-large replies, and the unknown-command
reply all reference the unbound identifier `chat_id` (the binding in scope is
`chatId`): evaluating the object literal throws a ReferenceError before any
HTTP call is attempted, and the outer catch answers 500 — these paths are
embedded as `(500, [])`. -/
def dispatch (ok : Nat → Bool) (files : List File) (chatId : Int) (text : Str) :
    Nat × List Call :=
  if text == str "/start" || text == str "/help" then
    simpleReply ok chatId helpText
  else if text == str "/list" then
    simpleReply ok chatId (if files.isEmpty then emptyText else listText files)
  else if text == str "/count" then
    simpleReply ok chatId (countText files)
  else if isPreOf (str "/search ") text then
    (500, [])
  else if isPreOf (str "/get ") text then
    let filename := jsTrim (text.drop 5)
    match getFileInfo files filename with
    | none => (500, [])
    | some f =>
      if TELEGRAM_FILE_LIMIT < f.size then (500, [])
      else
        let c := Call.sendDocument chatId f.name
        ((if ok 0 then 200 else 500), [c])
  else (500, [])

/-- Embedding of `POST /webhook/telegram` (part_000 lines 173-237): a delivery
without a `message` is acknowledged with 200 and no call; otherwise the text
is normalised by `(message.text || "").trim().toLowerCase()` and dispatched. -/
def handle (ok : Nat → Bool) (files : List File) (upd : Update) : Nat × List Call :=
  match upd.message with
  | none => (200, [])
  | some m => dispatch ok files m.chatId (jsLower (jsTrim (m.text.getD [])))

end IndexJs

/-! Helper lemmas about the string model. -/

theorem isPreOf_self (s : Str) : isPreOf s s = true := by
  induction s with
  | nil => rfl
  | cons c rest ih => simp [isPreOf, ih]

theorem isSubOf_self (s : Str) : isSubOf s s = true := by
  cases s with
  | nil => rfl
  | cons c rest => simp [isSubOf, isPreOf_self]

theorem isSubOf_append_left (pre s : Str) : isSubOf s (pre ++ s) = true := by
  induction pre with
  | nil => simpa using isSubOf_self s
  | cons a p ih => simp [isSubOf, ih]

theorem isSubOf_of_suffix (n pre s : Str) (h : isSubOf n s = true) :
    isSubOf n (pre ++ s) = true := by
  induction pre with
  | nil => simpa using h
  | cons a p ih => simp [isSubOf, ih]

theorem jsSplit_ne_nil (sep : Char) (s : Str) : jsSplit sep s ≠ [] := by
  cases s with
  | nil => simp [jsSplit]
  | cons c rest =>
    unfold jsSplit
    cases hsp : jsSplit sep rest with
    | nil => simp
    | cons h t =>
      by_cases hc : (c == sep) = true
      · simp [hc]
      · simp [hc]

theorem joinSep_jsSplit (sep : Char) (s : Str) : joinSep sep (jsSplit sep s) = s := by
  induction s with
  | nil => rfl
  | cons c rest ih =>
    unfold jsSplit
    cases hsp : jsSplit sep rest with
    | nil => exact absurd hsp (jsSplit_ne_nil sep rest)
    | cons h t =>
      rw [hsp] at ih
      by_cases hc : (c == sep) = true
      · have hce : c = sep := eq_of_beq hc
        subst hce
        simp only [hc, if_true]
        show c :: joinSep c (h :: t) = c :: rest
        rw [ih]
      · simp only [hc, if_false]
        cases t with
        | nil =>
          show c :: h = c :: rest
          simp only [joinSep] at ih
          rw [ih]
        | cons y ys =>
          show c :: (h ++ sep :: joinSep sep (y :: ys)) = c :: rest
          rw [show h ++ sep :: joinSep sep (y :: ys) = joinSep sep (h :: y :: ys) from rfl, ih]

theorem displayName_eq_afterFirst (s : Str) : displayName s = afterFirst '-' s := by
  induction s with
  | nil => rfl
  | cons c rest ih =>
    unfold displayName afterFirst jsSplit
    cases hsp : jsSplit '-' rest with
    | nil => exact absurd hsp (jsSplit_ne_nil _ rest)
    | cons h t =>
      by_cases hc : (c == '-') = true
      · simp only [hc, if_true, List.drop_succ_cons, List.drop_zero]
        rw [← hsp]
        exact joinSep_jsSplit '-' rest
      · simp only [hc, if_false, List.drop_succ_cons, List.drop_zero]
        rw [← ih]
        unfold displayName
        rw [hsp]
        rfl

theorem afterFirst_suffix (sep : Char) (s : Str) : ∃ pre, pre ++ afterFirst sep s = s := by
  induction s with
  | nil => exact ⟨[], rfl⟩
  | cons c rest ih =>
    by_cases hc : (c == sep) = true
    · exact ⟨[c], by simp [afterFirst, hc]⟩
    · obtain ⟨pre, hp⟩ := ih
      exact ⟨c :: pre, by simp [afterFirst, hc, hp]⟩

theorem afterFirst_of_not_mem (sep : Char) (s : Str) (h : sep ∉ s) : afterFirst sep s = [] := by
  induction s with
  | nil => rfl
  | cons c rest ih =>
    have hc : (c == sep) = false := by
      cases hcc : (c == sep) with
      | true => exact absurd (eq_of_beq hcc ▸ List.mem_cons_self c rest) h
      | false => rfl
    simp only [afterFirst, hc, if_false]
    exact ih (fun hm => h (List.mem_cons_of_mem _ hm))

theorem afterFirst_append (sep : Char) (pre post : Str) (h : sep ∉ pre) :
    afterFirst sep (pre ++ sep :: post) = post := by
  induction pre with
  | nil => simp [afterFirst]
  | cons a p ih =>
    have ha : (a == sep) = false := by
      cases hcc : (a == sep) with
      | true => exact absurd (eq_of_beq hcc ▸ List.mem_cons_self a p) h
      | false => rfl
    simp only [List.cons_append, afterFirst, ha, if_false]
    exact ih (fun hm => h (List.mem_cons_of_mem _ hm))

theorem logFloorAux_le (b : Nat) (hb : 2 ≤ b) :
    ∀ (fuel n k : Nat), n < b ^ (k + 1) → logFloorAux b fuel n ≤ k := by
  intro fuel
  induction fuel with
  | zero => intro n k _; simp [logFloorAux]
  | succ f ih =>
    intro n k hlt
    unfold logFloorAux
    by_cases hbn : b ≤ n
    · rw [if_pos hbn]
      cases k with
      | zero =>
        exfalso
        rw [pow_one] at hlt
        omega
      | succ k' =>
        have hdiv : n / b < b ^ (k' + 1) := by
          rw [Nat.div_lt_iff_lt_mul (by omega : 0 < b)]
          calc n < b ^ (k' + 1 + 1) := hlt
          _ = b ^ (k' + 1) * b := by ring
        exact Nat.succ_le_succ (ih (n / b) k' hdiv)
    · rw [if_neg hbn]; exact Nat.zero_le k

theorem logFloor_lt_four (b : Nat) (h4 : b < 1024 ^ 4) : logFloor 1024 b < 4 :=
  Nat.lt_succ_of_le (logFloorAux_le 1024 (by norm_num) b b 3 (by simpa using h4))

theorem ofNat_digit_isDigit : ∀ m, m < 10 → (Char.ofNat (48 + m)).isDigit = true := by decide

theorem getD_sizes_mem : ∀ j, j < 4 → sizes.getD j (str "undefined") ∈ sizes := by decide

theorem getBranch_calls_ne_nil (ok : Nat → Bool) (chatId : Int) (fi : File) :
    (Server.getBranch ok chatId fi).2 ≠ [] := by
  unfold Server.getBranch
  split
  · split
    · simp
    · split
      · simp
      · split <;> simp
  · simp

/-! Branch-selection lemmas: with a command prefix fixed, dispatch reduces to
the corresponding branch by computation, the tail of the text left symbolic. -/

theorem Server.dispatch_get_eq (ok : Nat → Bool) (files : List File) (chatId : Int) (r : Str)
    (raw : Option Str) (user : Str) :
    Server.dispatch ok files chatId (str "/get " ++ r) raw user =
      (match Server.getFileInfo files (jsTrim r) with
       | some fi => Server.getBranch ok chatId fi
       | none => simpleReply ok chatId (Server.notFoundText (jsTrim r))) := rfl

theorem Server.dispatch_help (ok : Nat → Bool) (files : List File) (chatId : Int)
    (raw : Option Str) (user : Str) :
    Server.dispatch ok files chatId (str "/help") raw user =
      simpleReply ok chatId (Server.helpText user) := rfl

theorem IndexJs.dispatch_get_crash (ok : Nat → Bool) (files : List File) (chatId : Int) (r : Str) :
    IndexJs.dispatch ok files chatId (str "/get " ++ r) =
      (match IndexJs.getFileInfo files (jsTrim r) with
       | none => (500, [])
       | some f =>
         if IndexJs.TELEGRAM_FILE_LIMIT < f.size then (500, [])
         else ((if ok 0 then 200 else 500), [Call.sendDocument chatId f.name])) := rfl

theorem IndexJs.dispatch_search (ok : Nat → Bool) (files : List File) (chatId : Int) (r : Str) :
    IndexJs.dispatch ok files chatId (str "/search " ++ r) = (500, []) := rfl

/-- The two match predicates of `Server.getFileInfo` coincide: matching the
display name (by case-insensitive equality or containment) is subsumed by
case-insensitive containment in the full storage name, of which the display
name is a suffix. -/
theorem matchPred_eq (frag name : Str) :
    (isSubOf (jsLower frag) (jsLower name) || (jsLower (displayName name) == jsLower frag))
    = (isSubOf (jsLower frag) (jsLower name) ||
       isSubOf (jsLower frag) (jsLower (displayName name))) := by
  obtain ⟨pre, hp⟩ := afterFirst_suffix '-' name
  rw [← displayName_eq_afterFirst] at hp
  have hmap : jsLower name = jsLower pre ++ jsLower (displayName name) := by
    unfold jsLower
    rw [← List.map_append, hp]
  have himp1 : (jsLower (displayName name) == jsLower frag) = true →
      isSubOf (jsLower frag) (jsLower name) = true := by
    intro h
    rw [hmap, eq_of_beq h]
    exact isSubOf_append_left _ _
  have himp2 : isSubOf (jsLower frag) (jsLower (displayName name)) = true →
      isSubOf (jsLower frag) (jsLower name) = true := by
    intro h
    rw [hmap]
    exact isSubOf_of_suffix _ _ _ h
  cases hx : isSubOf (jsLower frag) (jsLower name) <;>
    cases hy1 : (jsLower (displayName name) == jsLower frag) <;>
      cases hy2 : isSubOf (jsLower frag) (jsLower (displayName name)) <;> simp_all

/-- C1 (counterexample): the `getFileInfo` used by `/get` in the part_000
variant matches case-sensitively, so the fragment "report" fails to resolve
the stored "1700-Report.pdf" even though it is a case-insensitive substring
of it — refuting the claim as stated. -/
theorem resolve_case_mismatch_cex :
    IndexJs.getFileInfo [⟨str "1700-Report.pdf", 2048, str "d"⟩] (str "report") = none ∧
    isSubOf (jsLower (str "report")) (jsLower (str "1700-Report.pdf")) = true := by decide

/-- C1 (amended): in server.js, `getFileInfo` returns exactly the first file
whose storageName or displayName contains the fragment as a case-insensitive
substring; in the part_000 variant it returns the first file whose
storageName contains the fragment as a case-SENSITIVE substring. -/
theorem resolve_first_substring_match :
    (∀ (files : List File) (frag : Str), Server.getFileInfo files frag =
      files.find? (fun f => isSubOf (jsLower frag) (jsLower f.name) ||
                            isSubOf (jsLower frag) (jsLower (displayName f.name)))) ∧
    (∀ (files : List File) (frag : Str), IndexJs.getFileInfo files frag =
      files.find? (fun f => isSubOf frag f.name)) := by
  refine ⟨fun files frag => ?_, fun files frag => rfl⟩
  unfold Server.getFileInfo
  congr 1
  funext f
  exact matchPred_eq frag f.name

/-- C2 (counterexample): server.js's `formatFileSize` applies `parseFloat` to
the fixed-point rendering, so 2048 bytes is shown as "2 KB", not "2.00 KB"
with exactly two decimal places. -/
theorem format_trailing_zeros_cex :
    Server.formatFileSize 2048 = str "2 KB" ∧ ¬ (str "2 KB" = str "2.00 KB") := by decide

/-- C2 (amended): sizes are formatted with base-1024 units from B/KB/MB/GB;
the part_000 `formatSize` renders exactly two decimal places (2048 bytes →
"2.00 KB"), while server.js's `formatFileSize` drops trailing zeros
(2048 bytes → "2 KB"). -/
theorem size_format_two_decimals :
    IndexJs.formatSize 2048 = str "2.00 KB" ∧
    Server.formatFileSize 2048 = str "2 KB" ∧
    (∀ b : Nat, 1 ≤ b → b < 1024 ^ 4 →
      ∃ (t : Str) (d1 d2 : Char) (u : Str),
        IndexJs.formatSize b = t ++ '.' :: d1 :: d2 :: ' ' :: u ∧
        d1.isDigit = true ∧ d2.isDigit = true ∧ u ∈ sizes) := by
  refine ⟨by decide, by decide, fun b h1 h4 => ?_⟩
  have hi : logFloor 1024 b < 4 := logFloor_lt_four b h4
  have hb0 : ¬ b = 0 := by omega
  refine ⟨numStr ((b * 200 + 1024 ^ logFloor 1024 b) / (1024 ^ logFloor 1024 b * 2) / 100),
          Char.ofNat (48 + (b * 200 + 1024 ^ logFloor 1024 b) / (1024 ^ logFloor 1024 b * 2) / 10 % 10),
          Char.ofNat (48 + (b * 200 + 1024 ^ logFloor 1024 b) / (1024 ^ logFloor 1024 b * 2) % 10),
          sizes.getD (logFloor 1024 b) (str "undefined"), ?_, ?_, ?_, ?_⟩
  · unfold IndexJs.formatSize
    rw [if_neg hb0]
    simp only [toFixed2]
    rw [show (str " " : Str) = [' '] from rfl]
    simp [List.append_assoc]
  · exact ofNat_digit_isDigit _ (Nat.mod_lt _ (by norm_num))
  · exact ofNat_digit_isDigit _ (Nat.mod_lt _ (by norm_num))
  · exact getD_sizes_mem _ hi

/-- Witness for C2's amended theorem at 2048 bytes. -/
theorem size_format_two_decimals_w :
    IndexJs.formatSize 2048 = str "2.00 KB" ∧
    (∃ (t : Str) (d1 d2 : Char) (u : Str),
      IndexJs.formatSize 2048 = t ++ '.' :: d1 :: d2 :: ' ' :: u ∧
      d1.isDigit = true ∧ d2.isDigit = true ∧ u ∈ sizes) :=
  ⟨size_format_two_decimals.1, size_format_two_decimals.2.2 2048 (by norm_num) (by norm_num)⟩

/-- C9: the display name shown by the bot is the storage name with everything
up to and including the first dash removed; with no dash the display name is
empty, and dashes inside the original name are preserved. -/
theorem displayName_strips_first_dash :
    (∀ s : Str, displayName s = afterFirst '-' s) ∧
    (∀ s : Str, '-' ∉ s → displayName s = []) ∧
    (∀ pre post : Str, '-' ∉ pre → displayName (pre ++ '-' :: post) = post) := by
  refine ⟨displayName_eq_afterFirst, fun s h => ?_, fun pre post h => ?_⟩
  · rw [displayName_eq_afterFirst]
    exact afterFirst_of_not_mem '-' s h
  · rw [displayName_eq_afterFirst]
    exact afterFirst_append '-' pre post h

/-- Witness for C9 on a dashless name and on a timestamp-prefixed name whose
original name itself contains a dash. -/
theorem displayName_strips_first_dash_w :
    displayName (str "file.txt") = [] ∧
    displayName (str "1700-my-file.txt") = str "my-file.txt" := by
  constructor
  · exact displayName_strips_first_dash.2.1 (str "file.txt") (by decide)
  · have h := displayName_strips_first_dash.2.2 (str "1700") (str "my-file.txt") (by decide)
    rw [show str "1700" ++ '-' :: str "my-file.txt" = str "1700-my-file.txt" from rfl] at h
    exact h

/-- C10: both size formatters return "0 B" at zero through their explicit
guard, and for every byte count from 1 up to 1024^4 - 1 the computed unit
index selects a defined unit of the B/KB/MB/GB table. -/
theorem size_formatter_total :
    Server.formatFileSize 0 = str "0 B" ∧
    IndexJs.formatSize 0 = str "0 B" ∧
    (∀ b : Nat, 1 ≤ b → b < 1024 ^ 4 →
      logFloor 1024 b < sizes.length ∧
      sizes.getD (logFloor 1024 b) (str "undefined") ∈ sizes) := by
  refine ⟨rfl, rfl, fun b h1 h4 => ?_⟩
  have hi := logFloor_lt_four b h4
  exact ⟨by simpa [sizes] using hi, getD_sizes_mem _ hi⟩

/-- Witness for C10 at 2048 bytes. -/
theorem size_formatter_total_w :
    logFloor 1024 2048 < sizes.length ∧
    sizes.getD (logFloor 1024 2048) (str "undefined") ∈ sizes :=
  size_formatter_total.2.2 2048 (by norm_num) (by norm_num)

/-- C3 (counterexample): server.js has no size check in its `/get` branch, so
a found file larger than the 50 MB limit is still sent through the
document-attachment path. -/
theorem get_oversized_sends_document_cex :
    ((Server.handle (fun _ => true) [⟨str "1700-big.zip", 52428801, str "d"⟩]
        ⟨some ⟨1, some (str "/get big"), none⟩⟩).2).any Call.isDoc = true ∧
    IndexJs.TELEGRAM_FILE_LIMIT < 52428801 := by decide

/-- C3 (amended): in the part_000 variant an oversized `/get` never invokes
the document send, but its link reply crashes on the unbound `chat_id`, so
the webhook answers 500 with no call at all; in server.js there is no size
check and the document send is always attempted for a found file (whenever
the preceding info message succeeded). -/
theorem oversized_get_behavior :
    (∀ (ok : Nat → Bool) (files : List File) (chatId : Int) (r : Str) (fi : File),
      IndexJs.getFileInfo files (jsTrim r) = some fi →
      IndexJs.TELEGRAM_FILE_LIMIT < fi.size →
      IndexJs.dispatch ok files chatId (str "/get " ++ r) = (500, [])) ∧
    (∀ (ok : Nat → Bool) (files : List File) (chatId : Int) (r : Str) (fi : File)
        (raw : Option Str) (user : Str),
      Server.getFileInfo files (jsTrim r) = some fi → ok 0 = true →
      Call.sendDocument chatId fi.name ∈
        (Server.dispatch ok files chatId (str "/get " ++ r) raw user).2) := by
  constructor
  · intro ok files chatId r fi hf hs
    rw [IndexJs.dispatch_get_crash, hf]
    exact if_pos hs
  · intro ok files chatId r fi raw user hf h0
    rw [Server.dispatch_get_eq, hf]
    show Call.sendDocument chatId fi.name ∈ (Server.getBranch ok chatId fi).2
    unfold Server.getBranch
    rw [h0]
    cases h1 : ok 1 <;> cases h2 : ok 2 <;> cases h3 : ok 3 <;> simp

/-- Witness for C3's amended theorem: an oversized stored file requested via
`/get` in each variant. -/
theorem oversized_get_behavior_w :
    IndexJs.dispatch (fun _ => true) [⟨str "1700-big.zip", 52428801, str "d"⟩] 1
      (str "/get " ++ str "big") = (500, []) ∧
    Call.sendDocument 1 (str "1700-big.zip") ∈
      (Server.dispatch (fun _ => true) [⟨str "1700-big.zip", 52428801, str "d"⟩] 1
        (str "/get " ++ str "big") none (str "User")).2 :=
  ⟨oversized_get_behavior.1 (fun _ => true) _ 1 (str "big")
      ⟨str "1700-big.zip", 52428801, str "d"⟩ (by decide) (by decide),
   oversized_get_behavior.2 (fun _ => true) _ 1 (str "big")
      ⟨str "1700-big.zip", 52428801, str "d"⟩ none (str "User") (by decide) rfl⟩

/-- C4 (code bug in part_000): a `/get` with no matching file is meant to
reply "File not found", and does so in server.js; in the part_000 variant the
reply object references the unbound `chat_id`, so the handler throws, sends
nothing and answers 500. -/
theorem get_not_found_eval :
    IndexJs.handle (fun _ => true) [] ⟨some ⟨5, some (str "/get report"), none⟩⟩ = (500, []) ∧
    Server.handle (fun _ => true) [] ⟨some ⟨5, some (str "/get report"), none⟩⟩ =
      (200, [Call.sendMessage 5 (Server.notFoundText (str "report"))]) := by decide

/-- C5 (counterexample): a transport failure of the plain `sendMessage` call
is rethrown into the webhook's catch, which answers 500, refuting the claim
that the webhook always acknowledges 200. -/
theorem send_failure_500_cex :
    (Server.handle (fun _ => false) [] ⟨some ⟨1, some (str "/help"), none⟩⟩).1 = 500 := by decide

/-- C5 (amended): only the document-send call degrades to a link fallback
(server.js: a failing `sendDocument` is caught and replaced by a
download-link message, and the webhook still answers 200); a failing plain
`sendMessage` propagates to the handler's catch, which answers 500. -/
theorem transport_failure_behavior :
    (∀ (ok : Nat → Bool) (files : List File) (chatId : Int) (r : Str) (fi : File)
        (raw : Option Str) (user : Str),
      Server.getFileInfo files (jsTrim r) = some fi →
      ok 0 = true → ok 1 = false → ok 2 = true →
      Server.dispatch ok files chatId (str "/get " ++ r) raw user =
        (200, [Call.sendMessage chatId (Server.infoText fi),
               Call.sendDocument chatId fi.name,
               Call.sendMessage chatId (Server.docFallbackText fi)])) ∧
    (∀ (ok : Nat → Bool) (files : List File) (chatId : Int) (raw : Option Str) (user : Str),
      ok 0 = false →
      Server.dispatch ok files chatId (str "/help") raw user =
        (500, [Call.sendMessage chatId (Server.helpText user)])) := by
  constructor
  · intro ok files chatId r fi raw user hf h0 h1 h2
    rw [Server.dispatch_get_eq, hf]
    show Server.getBranch ok chatId fi = _
    unfold Server.getBranch
    rw [h0, h1, h2]
    simp
  · intro ok files chatId raw user h0
    rw [Server.dispatch_help]
    unfold simpleReply
    rw [h0]
    simp

/-- Witness for C5's amended theorem: the document send fails but its link
fallback succeeds (status 200); a plain help reply fails (status 500). -/
theorem transport_failure_behavior_w :
    Server.dispatch (fun n => n != 1) [⟨str "1700-report.pdf", 2048, str "d"⟩] 1
        (str "/get " ++ str "report") none (str "User") =
      (200, [Call.sendMessage 1 (Server.infoText ⟨str "1700-report.pdf", 2048, str "d"⟩),
             Call.sendDocument 1 (str "1700-report.pdf"),
             Call.sendMessage 1 (Server.docFallbackText ⟨str "1700-report.pdf", 2048, str "d"⟩)]) ∧
    Server.dispatch (fun _ => false) [] 1 (str "/help") none (str "User") =
      (500, [Call.sendMessage 1 (Server.helpText (str "User"))]) :=
  ⟨transport_failure_behavior.1 (fun n => n != 1) _ 1 (str "report")
      ⟨str "1700-report.pdf", 2048, str "d"⟩ none (str "User")
      (by decide) (by decide) (by decide) (by decide),
   transport_failure_behavior.2 (fun _ => false) [] 1 none (str "User") rfl⟩

/-- C6 (counterexample): a successful `/get` of a found file attempts two
outbound calls (info message, then document send), not exactly one; and a
message carrying no text gets one unknown-command reply, not none. -/
theorem get_two_calls_cex :
    ((Server.handle (fun _ => true) [⟨str "1700-report.pdf", 2048, str "d"⟩]
        ⟨some ⟨1, some (str "/get report"), none⟩⟩).2).length = 2 ∧
    ((Server.handle (fun _ => true) [] ⟨some ⟨1, none, none⟩⟩).2).length = 1 := by decide

/-- C6 (amended): a delivery without a message object produces no outbound
call and a 200 acknowledgement; every dispatched message attempts at least
one outbound call; and the `/get`-found branch with successful transport
attempts exactly two (info message, then document send). -/
theorem reply_call_counts :
    (∀ (ok : Nat → Bool) (files : List File), Server.handle ok files ⟨none⟩ = (200, [])) ∧
    (∀ (ok : Nat → Bool) (files : List File) (chatId : Int) (text : Str)
        (raw : Option Str) (user : Str),
      (Server.dispatch ok files chatId text raw user).2 ≠ []) ∧
    (∀ (ok : Nat → Bool) (files : List File) (chatId : Int) (r : Str) (fi : File)
        (raw : Option Str) (user : Str),
      Server.getFileInfo files (jsTrim r) = some fi → ok 0 = true → ok 1 = true →
      Server.dispatch ok files chatId (str "/get " ++ r) raw user =
        (200, [Call.sendMessage chatId (Server.infoText fi),
               Call.sendDocument chatId fi.name])) := by
  refine ⟨fun ok files => rfl, ?_, ?_⟩
  · intro ok files chatId text raw user
    simp only [Server.dispatch]
    split
    · simp [simpleReply]
    · split
      · simp [simpleReply]
      · split
        · simp [simpleReply]
        · split
          · split
            · exact getBranch_calls_ne_nil ok chatId _
            · simp [simpleReply]
          · simp [simpleReply]
  · intro ok files chatId r fi raw user hf h0 h1
    rw [Server.dispatch_get_eq, hf]
    show Server.getBranch ok chatId fi = _
    unfold Server.getBranch
    rw [h0, h1]
    simp

/-- Witness for C6's amended theorem. -/
theorem reply_call_counts_w :
    Server.handle (fun _ => true) [] ⟨none⟩ = (200, []) ∧
    (Server.dispatch (fun _ => true) [] 1 (str "/count") none (str "User")).2 ≠ [] ∧
    Server.dispatch (fun _ => true) [⟨str "1700-report.pdf", 2048, str "d"⟩] 1
        (str "/get " ++ str "report") none (str "User") =
      (200, [Call.sendMessage 1 (Server.infoText ⟨str "1700-report.pdf", 2048, str "d"⟩),
             Call.sendDocument 1 (str "1700-report.pdf")]) :=
  ⟨reply_call_counts.1 (fun _ => true) [],
   reply_call_counts.2.1 (fun _ => true) [] 1 (str "/count") none (str "User"),
   reply_call_counts.2.2 (fun _ => true) _ 1 (str "report")
     ⟨str "1700-report.pdf", 2048, str "d"⟩ none (str "User") (by decide) rfl rfl⟩

/-- C7 (code bug in part_000): a `/search` with a matching stored file is
meant to reply with a numbered list, but the reply object references the
unbound `chat_id`, so the handler throws, sends nothing and answers 500 —
even though the branch's filter did find the match. -/
theorem search_crash_eval :
    IndexJs.handle (fun _ => true) [⟨str "1700-notes.txt", 5, str "d"⟩]
        ⟨some ⟨7, some (str "/search notes"), none⟩⟩ = (500, []) ∧
    (IndexJs.searchMatches [⟨str "1700-notes.txt", 5, str "d"⟩] (str "notes")).length = 1 := by
  decide

/-- C8 (counterexample): server.js never checks the bot token: with the
variable absent it still starts serving, with the literal text `undefined`
interpolated into the API URL. -/
theorem server_no_token_check_cex :
    Server.startup none = Startup.serving (str "https://api.telegram.org/botundefined") := by
  decide

/-- C8 (amended): the part_000 variant exits with code 1 when the token is
absent or present but empty (both falsy) and serves for a nonempty token;
server.js performs no check and serves in every case. -/
theorem startup_token_check :
    IndexJs.startup none = Startup.exited 1 ∧
    IndexJs.startup (some []) = Startup.exited 1 ∧
    (∀ t : Str, t ≠ [] → IndexJs.startup (some t) = Startup.serving (apiBase ++ t)) ∧
    (∀ t : Str, Server.startup (some t) = Startup.serving (apiBase ++ t)) ∧
    Server.startup none = Startup.serving (apiBase ++ str "undefined") := by
  refine ⟨rfl, rfl, fun t ht => ?_, fun _ => rfl, rfl⟩
  simp [IndexJs.startup, ht]

/-- Witness for C8's amended theorem at a concrete nonempty token. -/
theorem startup_token_check_w :
    IndexJs.startup (some (str "abc123")) = Startup.serving (apiBase ++ str "abc123") :=
  startup_token_check.2.2.1 (str "abc123") (by decide)
